import Mathlib

/-!
Verification of the zodgres schema-migration and query layer.

This file gives a shallow embedding, in Lean, of the parts of the
zodgres source that the specification talks about:

* `src/typemap.ts` — `zodUnwrapType`, `zodToMappedType`, the `typemap` table;
* `src/collection.ts` — `zodToPostgresType`, `buildColumnDefinition`,
  `alterTable`, `createTable`, `getMigrationSql`, `buildSqlTemplateStrings`,
  `selectOne`, `convertRowFromDatabase`, `create`, `processSQLValues`;
* `src/utils.ts` — `createEnumType`.

JavaScript values that can appear in column defaults are modelled by
`JsVal` (with `null` distinct from an absent/`undefined` value, which is
modelled by `Option`).  The zod schema objects are modelled by `ZodType`
(the wrapper chain optional/nullable/default around a base type) plus the
`unique()` metadata flag.  Database side effects are modelled by returning
the list of SQL statement strings the code would issue; query execution is
a parameter (`exec`), matching the spec's treatment of the SQL driver as an
external collaborator.
-/

namespace Zodgres

/-- A JavaScript primitive value, as used for schema default values.
`null` is a value; an absent (`undefined`) value is `Option.none` at use sites. -/
inductive JsVal where
  | str (s : String)
  | num (n : Int)
  | bool (b : Bool)
  | null
  deriving Repr, DecidableEq

/-- JS template-literal rendering of a `JsVal` (the result of `${v}`). -/
def jsValToString : JsVal → String
  | .str s => s
  | .num n => toString n
  | .bool b => if b then "true" else "false"
  | .null => "null"

/-- JS truthiness of a possibly-absent `JsVal` (used by `(defaultValue) ? ... : ...`). -/
def jsTruthy : Option JsVal → Bool
  | none => false
  | some (.str s) => s ≠ ""
  | some (.num n) => n ≠ 0
  | some (.bool b) => b
  | some .null => false

/-- zod number formats distinguished by `zodToPostgresType` (`currentType.format`). -/
inductive NumFormat where
  | float32
  | float64
  | other
  deriving Repr, DecidableEq

/-- The base (fully unwrapped) zod types the source distinguishes with
`instanceof` checks.  `uuid` covers `ZodGUID`/`ZodUUID`. -/
inductive ZodTy where
  | string (maxLength : Option Nat)
  | number (format : NumFormat)
  | boolean
  | date
  | array
  | object
  | record
  | map
  | any
  | enum (options : List String)
  | literal
  | union
  | uuid
  | unknown
  deriving Repr, DecidableEq

/-- A zod schema node: a base type possibly wrapped in
`.optional()` / `.nullable()` / `.default(v)` wrappers. -/
inductive ZodType where
  | base (t : ZodTy)
  | optional (inner : ZodType)
  | nullable (inner : ZodType)
  | defaulted (v : JsVal) (inner : ZodType)
  deriving Repr, DecidableEq

/-- A zod property as passed around by the source: the wrapper chain plus the
`unique()` metadata flag read by `isUnique` (zod-ext.ts). -/
structure ZodProperty where
  ty : ZodType
  uniqueMeta : Bool
  deriving Repr, DecidableEq

/-- The unwrapping loop of `zodUnwrapType` (typemap.ts): peels
Optional/Nullable/Default wrappers, accumulating nullability and the
innermost default value. -/
def zodUnwrapCore : ZodType → Bool → Option JsVal → ZodTy × Bool × Option JsVal
  | .base t, n, d => (t, n, d)
  | .optional i, _, d => zodUnwrapCore i true d
  | .nullable i, _, d => zodUnwrapCore i true d
  | .defaulted v i, n, _ => zodUnwrapCore i n (some v)

/-- Result of `zodUnwrapType`. -/
structure Unwrapped where
  type : ZodTy
  nullable : Bool
  defaultValue : Option JsVal
  unique : Bool
  deriving Repr, DecidableEq

/-- `zodUnwrapType` (typemap.ts): unwrap wrapper types and read the
`unique()` metadata. -/
def zodUnwrapType (p : ZodProperty) : Unwrapped :=
  let r := zodUnwrapCore p.ty false none
  { type := r.1, nullable := r.2.1, defaultValue := r.2.2, unique := p.uniqueMeta }

/-- The `def.type` tag string of a base zod type (used as the `typemap` lookup
key in `zodToMappedType`).  `ZodGUID`/`ZodUUID` are string-format types in
zod, hence tag `"string"` (they are intercepted before the lookup anyway). -/
def zodDefType : ZodTy → String
  | .string _ => "string"
  | .number _ => "number"
  | .boolean => "boolean"
  | .date => "date"
  | .array => "array"
  | .object => "object"
  | .record => "record"
  | .map => "map"
  | .any => "any"
  | .enum _ => "enum"
  | .literal => "literal"
  | .union => "union"
  | .uuid => "string"
  | .unknown => "unknown"

/-- The `typemap` object (typemap.ts): canonical map from zod type tags to
live PostgreSQL type strings. -/
def typemapLookup : String → Option String
  | "number" => some "numeric"
  | "string" => some "text"
  | "string_max" => some "character varying"
  | "date" => some "timestamp without time zone"
  | "uuid" => some "uuid"
  | "float32" => some "real"
  | "float64" => some "double precision"
  | "boolean" => some "boolean"
  | "array" => some "jsonb"
  | "object" => some "jsonb"
  | "record" => some "jsonb"
  | "map" => some "jsonb"
  | "any" => some "jsonb"
  | "enum" => some "USER-DEFINED"
  | "id" => some "integer"
  | _ => none

/-- `zodToMappedType` (typemap.ts): the expected live type string for a
declared column, used by the migration planner to decide whether a column
needs an `ALTER COLUMN ... TYPE` statement. -/
def zodToMappedType (columnName : String) (p : ZodProperty) : String :=
  let u := zodUnwrapType p
  match u.type with
  | .uuid => "uuid"
  | t =>
    if columnName = "id" then
      match t with
      | .string (some _) => "character varying"
      | .number _ => "integer"
      | _ => (typemapLookup (zodDefType t)).getD "integer"
    else
      match t with
      | .string (some _) => "character varying"
      | _ => (typemapLookup (zodDefType t)).getD "text"

/-- A normalized column definition (utils.ts `ColumnDefinition`), as produced
by `zodToPostgresType`.  `default = none` models JS `undefined`. -/
structure ColumnDefinition where
  type : String
  nullable : Bool
  default : Option JsVal
  options : List String
  unique : Bool
  deriving Repr, DecidableEq

/-- `Collection.zodToPostgresType` (collection.ts): map an unwrapped zod
property to a PostgreSQL column definition. -/
def zodToPostgresType (p : ZodProperty) : ColumnDefinition :=
  let u := zodUnwrapType p
  match u.type with
  | .string (some m) =>
    { type := "VARCHAR(" ++ toString m ++ ")", nullable := u.nullable,
      default := u.defaultValue, options := [], unique := u.unique }
  | .string none =>
    { type := "TEXT", nullable := u.nullable, default := u.defaultValue,
      options := [], unique := u.unique }
  | .number .float32 =>
    { type := "REAL", nullable := u.nullable, default := u.defaultValue,
      options := [], unique := u.unique }
  | .number .float64 =>
    { type := "DOUBLE PRECISION", nullable := u.nullable,
      default := u.defaultValue, options := [], unique := u.unique }
  | .number .other =>
    { type := "DECIMAL", nullable := u.nullable, default := u.defaultValue,
      options := [], unique := u.unique }
  | .boolean =>
    { type := "BOOLEAN", nullable := u.nullable, default := u.defaultValue,
      options := [], unique := u.unique }
  | .date =>
    { type := "TIMESTAMP", nullable := u.nullable,
      default := if jsTruthy u.defaultValue then some (.str "now()") else some .null,
      options := [], unique := u.unique }
  | .array =>
    { type := "JSONB", nullable := u.nullable, default := u.defaultValue,
      options := [], unique := u.unique }
  | .object =>
    { type := "JSONB", nullable := u.nullable, default := u.defaultValue,
      options := [], unique := u.unique }
  | .record =>
    { type := "JSONB", nullable := u.nullable, default := u.defaultValue,
      options := [], unique := u.unique }
  | .map =>
    { type := "JSONB", nullable := u.nullable, default := u.defaultValue,
      options := [], unique := u.unique }
  | .any =>
    { type := "JSONB", nullable := u.nullable, default := u.defaultValue,
      options := [], unique := u.unique }
  | .enum opts =>
    { type := "ENUM", nullable := u.nullable, default := u.defaultValue,
      options := opts, unique := u.unique }
  | .literal =>
    { type := "TEXT", nullable := u.nullable, default := u.defaultValue,
      options := [], unique := u.unique }
  | .union =>
    { type := "TEXT", nullable := u.nullable, default := u.defaultValue,
      options := [], unique := u.unique }
  | .uuid =>
    { type := "UUID", nullable := u.nullable,
      default := some (.str "gen_random_uuid()"), options := [], unique := u.unique }
  | .unknown =>
    { type := "TEXT", nullable := u.nullable, default := u.defaultValue,
      options := [], unique := u.unique }

/-- `DEFAULT_METHODS` (collection.ts line 7): string defaults recognized as
generator expressions, emitted unquoted. -/
def DEFAULT_METHODS : List String := ["now()", "gen_random_uuid()"]

/-- `Collection.buildColumnDefinition` (collection.ts): render one column
clause.  Returns the clause together with the (possibly enum-renamed)
definition, mirroring the in-place mutation of `def.type` for enums. -/
def buildColumnDefinition (tbl name : String) (d0 : ColumnDefinition) :
    String × ColumnDefinition :=
  let d := if d0.type = "ENUM" then { d0 with type := tbl ++ "_" ++ name } else d0
  if name = "id" then
    if d.type = "UUID" then
      (name ++ " UUID PRIMARY KEY DEFAULT gen_random_uuid()", d)
    else
      (name ++ " INTEGER GENERATED ALWAYS AS IDENTITY PRIMARY KEY", d)
  else
    let s := name ++ " " ++ d.type
    let s := if d.nullable then s else s ++ " NOT NULL"
    let s :=
      match d.default with
      | none => s
      | some v =>
        match v with
        | .str t =>
          if DEFAULT_METHODS.contains t then s ++ " DEFAULT " ++ t
          else s ++ " DEFAULT '" ++ t ++ "'"
        | v => s ++ " DEFAULT " ++ jsValToString v
    let s := if d.unique then s ++ " UNIQUE" else s
    (s, d)

/-- JS `Array.prototype.join(sep)`. -/
def jsJoin (sep : String) : List String → String
  | [] => ""
  | [x] => x
  | x :: y :: rest => x ++ sep ++ jsJoin sep (y :: rest)

/-- One row of the `information_schema.columns` introspection query
(`Collection.columns`), the planner's Live Column Snapshot. -/
structure LiveColumn where
  column_name : String
  data_type : String
  is_nullable : String
  column_default : Option String
  deriving Repr, DecidableEq

/-- The value stored in `existingColumnMap` for one live column. -/
structure ExistingEntry where
  type : String
  nullable : Bool
  defaultExpr : Option String
  deriving Repr, DecidableEq

/-- Lookup in `existingColumnMap` (collection.ts `alterTable`): the map is
filled by `forEach`/`set` in order, so a later entry with the same name wins;
`get` therefore returns the last matching column. -/
def lookupLive (cols : List LiveColumn) (n : String) : Option ExistingEntry :=
  (cols.reverse.find? (fun c => c.column_name == n)).map
    (fun c => { type := c.data_type, nullable := c.is_nullable == "YES",
                defaultExpr := c.column_default })

/-- The error message thrown by `alterTable` for a nullable→non-null
transition without a default value. -/
def mustHaveDefaultMsg (tbl col : String) : String :=
  tbl ++ ": field '" ++ col ++ "' must have a default value"

/-- The loop body of `Collection.alterTable` for one target column: the
`(preAlterTableCommands, alterTableCommands)` contributions, or the thrown
error.  `buildColumnDefinition` is consulted for the rendered clause and for
the enum-renamed type; `zodToPostgresType` is re-evaluated for
`newColumnDef` exactly as in the source. -/
def alterColumnCmds (tbl : String) (existing : List LiveColumn)
    (colName : String) (p : ZodProperty) :
    Except String (List String × List String) :=
  let d := zodToPostgresType p
  let built := buildColumnDefinition tbl colName d
  match lookupLive existing colName with
  | none => .ok ([], ["ADD COLUMN " ++ built.1])
  | some ex =>
    let newColumnDef := zodToPostgresType p
    if ex.type = zodToMappedType colName p then
      if colName ≠ "id" ∧ ex.nullable ≠ newColumnDef.nullable then
        if newColumnDef.nullable then
          .ok ([], ["ALTER COLUMN " ++ colName ++ " DROP NOT NULL"])
        else
          match newColumnDef.default with
          | none => .error (mustHaveDefaultMsg tbl colName)
          | some v =>
            .ok (["UPDATE " ++ tbl ++ " SET " ++ colName ++ " = " ++
                    jsValToString v ++ " WHERE " ++ colName ++ " IS NULL"],
                 ["ALTER COLUMN " ++ colName ++ " SET NOT NULL"])
      else
        .ok ([], [])
    else
      .ok ([],
        [if newColumnDef.type = "ENUM" then
            "ALTER COLUMN " ++ colName ++ " TYPE " ++ built.2.type ++
              " USING (" ++ colName ++ "::" ++ built.2.type ++ ")"
         else
            "ALTER COLUMN " ++ colName ++ " TYPE " ++ built.2.type])

/-- The full `alterTable` loop over the target schema (the entries of
`zodToTableSchema`, i.e. the zod shape in declaration order), accumulating
pre-alter and alter commands; the first thrown error aborts the loop. -/
def alterTableCmds (tbl : String) (existing : List LiveColumn) :
    List (String × ZodProperty) → Except String (List String × List String)
  | [] => .ok ([], [])
  | (n, p) :: rest =>
    match alterColumnCmds tbl existing n p with
    | .error e => .error e
    | .ok (pre1, alt1) =>
      match alterTableCmds tbl existing rest with
      | .error e => .error e
      | .ok (pre2, alt2) => .ok (pre1 ++ pre2, alt1 ++ alt2)

/-- `Collection.alterTable` (collection.ts): assemble the ordered statement
list — the joined backfill pre-statements first, then one batched
`ALTER TABLE`. -/
def alterTable (tbl : String) (shape : List (String × ZodProperty))
    (existing : List LiveColumn) : Except String (List String) :=
  match alterTableCmds tbl existing shape with
  | .error e => .error e
  | .ok (pre, alts) =>
    .ok ((if pre = [] then [] else [jsJoin "; " pre]) ++
         (if alts = [] then []
          else ["ALTER TABLE " ++ tbl ++ " " ++ jsJoin ", " alts]))

/-- `Collection.createTable` (collection.ts): the single CREATE TABLE
statement (enum pre-flight actions are executed separately, not returned). -/
def createTable (tbl : String) (shape : List (String × ZodProperty)) :
    List String :=
  ["CREATE TABLE " ++ tbl ++ " (" ++
    jsJoin ", "
      (shape.map (fun np => (buildColumnDefinition tbl np.1 (zodToPostgresType np.2)).1)) ++
    ")"]

/-- `Collection.getMigrationSql` (collection.ts): the migration plan, given
the result of the table-existence introspection query. -/
def getMigrationSql (tbl : String) (shape : List (String × ZodProperty))
    (tableExists : Bool) (existing : List LiveColumn) :
    Except String (List String) :=
  if tableExists then alterTable tbl shape existing
  else .ok (createTable tbl shape)

/-- `Collection.migrate` executes exactly the statements of a successful
plan; a planning error aborts before any statement runs. -/
def executedStatements (plan : Except String (List String)) : List String :=
  match plan with
  | .error _ => []
  | .ok l => l

/-- `createEnumType` (utils.ts): the SQL statements issued for one enum
column, given the introspected existing labels (`none` when the
`pg_type` lookup finds no type of that name, `some labels` otherwise,
ordered by `enumsortorder`). -/
def createEnumType (existingLabels : Option (List String)) (tyName : String)
    (options : List String) : List String :=
  match existingLabels with
  | some labels =>
    (options.filter (fun o => ¬ labels.contains o)).map
      (fun o => "ALTER TYPE " ++ tyName ++ " ADD VALUE '" ++ o ++ "'")
  | none =>
    ["CREATE TYPE " ++ tyName ++ " AS ENUM (" ++
      jsJoin ", " (options.map (fun o => "'" ++ o ++ "'")) ++ ")"]

/-- Modelled collaborator semantics of the statements issued by
`createEnumType`: PostgreSQL `ALTER TYPE ... ADD VALUE` appends the new
label at the end of the label list, and `CREATE TYPE ... AS ENUM` defines
the labels in declaration order. -/
def enumLabelsAfter (existingLabels : Option (List String))
    (options : List String) : List String :=
  match existingLabels with
  | some labels => labels ++ options.filter (fun o => ¬ labels.contains o)
  | none => options

/-- JS regex word character (`\w`): ASCII letters, digits, underscore. -/
def isWordChar (c : Char) : Bool := c.isAlphanum || c = '_'

/-- JS regex whitespace (`\s`), restricted to the ASCII range. -/
def isSpaceChar (c : Char) : Bool :=
  c = ' ' || c = '\t' || c = '\n' || c = '\r' || c = Char.ofNat 11 || c = Char.ofNat 12

/-- Case-insensitive literal match of one keyword word; returns the rest. -/
def matchChars : List Char → List Char → Option (List Char)
  | [], cs => some cs
  | _ :: _, [] => none
  | w :: ws, c :: cs => if c.toLower = w.toLower then matchChars ws cs else none

/-- Match a multi-word keyword pattern (words separated by `\s+`). -/
def matchWords : List (List Char) → List Char → Option (List Char)
  | [], cs => some cs
  | w :: ws, cs =>
    match matchChars w cs with
    | none => none
    | some rest =>
      match ws with
      | [] => some rest
      | _ :: _ =>
        match rest with
        | [] => none
        | c :: cs2 =>
          if isSpaceChar c then matchWords ws (cs2.dropWhile isSpaceChar) else none

/-- Does one of the keyword alternatives match here, with a trailing word
boundary (`\b` after the keyword)? -/
def keywordAtHere (alts : List (List String)) (cs : List Char) : Bool :=
  alts.any fun alt =>
    match matchWords (alt.map (fun w => w.toList)) cs with
    | none => false
    | some [] => true
    | some (c :: _) => ¬ isWordChar c

/-- Scan for the first keyword occurrence.  `boundary` records whether the
previous character was a non-word character (the `\b` before the keyword;
true at the start of the string). -/
def searchAux (alts : List (List String)) : List Char → Nat → Bool → Option Nat
  | [], _, _ => none
  | c :: rest, idx, boundary =>
    if boundary && keywordAtHere alts (c :: rest) then some idx
    else searchAux alts rest (idx + 1) (¬ isWordChar c)

/-- Index of the first match of a case-insensitive word-boundary keyword
alternation (the `match.index` / `.search` of the source's regexes). -/
def regexSearch (alts : List (List String)) (s : String) : Option Nat :=
  searchAux alts s.toList 0 true

/-- JS `String.prototype.search`: first match index, or `-1`. -/
def jsSearch (alts : List (List String)) (s : String) : Int :=
  match regexSearch alts s with
  | some i => (i : Int)
  | none => -1

/-- JS `substring(i)` (negative start clamps to 0). -/
def jsSubstringFrom (s : String) (i : Int) : String :=
  String.mk (s.toList.drop i.toNat)

/-- JS `substring(0, i)` (negative end clamps to 0). -/
def jsSubstringUpTo (s : String) (i : Int) : String :=
  String.mk (s.toList.take i.toNat)

/-- JS `String.prototype.trim` (ASCII whitespace). -/
def jsTrim (s : String) : String :=
  String.mk (((s.toList.dropWhile isSpaceChar).reverse.dropWhile isSpaceChar).reverse)

/-- Keywords that should come after FROM in a SELECT
(collection.ts `fromKeywords`). -/
def fromKeywords : List (List String) :=
  [["WHERE"], ["ORDER", "BY"], ["GROUP", "BY"], ["HAVING"], ["LIMIT"],
   ["OFFSET"], ["LEFT", "JOIN"], ["RIGHT", "JOIN"], ["INNER", "JOIN"],
   ["FULL", "JOIN"]]

/-- Keywords that should come after VALUES in an INSERT. -/
def insertKeywords : List (List String) := [["ON", "CONFLICT"], ["RETURNING"]]

/-- Keywords that should come after SET in an UPDATE. -/
def updateKeywords : List (List String) :=
  [["WHERE"], ["ORDER", "BY"], ["LIMIT"], ["OFFSET"], ["RETURNING"]]

/-- Keywords that should come after FROM in a DELETE. -/
def deleteKeywords : List (List String) :=
  [["WHERE"], ["ORDER", "BY"], ["GROUP", "BY"], ["HAVING"], ["LIMIT"],
   ["OFFSET"], ["RETURNING"]]

/-- The cooked/raw pair of a JS `TemplateStringsArray`. -/
structure TemplateStrings where
  cooked : List String
  raw : List String
  deriving Repr, DecidableEq

/-- A value interpolated into a SQL template: a primitive, a plain object,
an array, a `Collection` instance, the `sql(obj, keys)` SET-clause helper,
or a `sql.unsafe(...)` raw fragment. -/
inductive SqlValue where
  | prim (v : JsVal)
  | obj (fields : List (String × JsVal))
  | arr (elems : List JsVal)
  | collectionRef (tableName : String)
  | setClause (fields : List (String × JsVal))
  | rawSql (s : String)
  deriving Repr, DecidableEq

/-- `processSQLValues` (collection.ts): a `Collection` instance interpolates
as its bare table name; every other value passes through unchanged. -/
def processSQLValues (values : List SqlValue) : List SqlValue :=
  values.map fun v =>
    match v with
    | .collectionRef n => .rawSql n
    | v => v

/-- Append text to the last literal segment (both arrays), as the suffix
handling of `buildSqlTemplateStrings` and `selectOne` do. -/
def appendToLast (l : List String) (t : String) : List String :=
  match l with
  | [] => []
  | _ => l.dropLast ++ [(l.getLast?.getD "") ++ t]

/-- Final suffix handling of `buildSqlTemplateStrings` plus
`processSQLValues`. -/
def assembleTemplate (suffix : String) (cooked raw : List String)
    (values : List SqlValue) : TemplateStrings × List SqlValue :=
  if suffix = "" then (⟨cooked, raw⟩, processSQLValues values)
  else (⟨appendToLast cooked (" " ++ suffix), appendToLast raw (" " ++ suffix)⟩,
        processSQLValues values)

/-- `Collection.buildSqlTemplateStrings` (collection.ts): rewrite a partial
clause template into a complete statement bound to `tableName`, preserving
the parameter segments.  A `Collection` instance passed as the first UPDATE
value is not modelled (only plain objects trigger the SET-clause
expansion). -/
def buildSqlTemplateStrings (tableName : String) (strings : TemplateStrings)
    (sqlCommand : String) (suffix : String) (values : List SqlValue) :
    Except String (TemplateStrings × List SqlValue) :=
  let firstString := strings.cooked.head?.getD ""
  let firstRawString := strings.raw.head?.getD ""
  let restCooked := strings.cooked.drop 1
  let restRaw := strings.raw.drop 1
  let baseCommand :=
    String.mk ((sqlCommand.toList.takeWhile (fun c => c ≠ ' ')).map Char.toUpper)
  if baseCommand = "SELECT" then
    let isSimpleSelect := sqlCommand = "SELECT"
    match regexSearch fromKeywords firstString with
    | some keywordIndex =>
      let beforeKeyword := jsTrim (jsSubstringUpTo firstString (keywordIndex : Int))
      let afterKeyword := jsSubstringFrom firstString (keywordIndex : Int)
      let rawKeywordIndex := jsSearch fromKeywords firstRawString
      let afterKeywordRaw := jsSubstringFrom firstRawString rawKeywordIndex
      if isSimpleSelect then
        let beforeKeywordRaw := jsTrim (jsSubstringUpTo firstRawString rawKeywordIndex)
        .ok (assembleTemplate suffix
          (("SELECT " ++ beforeKeyword ++ " FROM " ++ tableName ++ " " ++ afterKeyword) :: restCooked)
          (("SELECT " ++ beforeKeywordRaw ++ " FROM " ++ tableName ++ " " ++ afterKeywordRaw) :: restRaw)
          values)
      else
        .ok (assembleTemplate suffix
          ((sqlCommand ++ " FROM " ++ tableName ++ " " ++ afterKeyword) :: restCooked)
          ((sqlCommand ++ " FROM " ++ tableName ++ " " ++ afterKeywordRaw) :: restRaw)
          values)
    | none =>
      if isSimpleSelect then
        let selectColumns := if firstString = "" then "*" else firstString
        let selectColumnsRaw := if firstRawString = "" then "*" else firstRawString
        .ok (assembleTemplate suffix
          (("SELECT " ++ selectColumns ++ " FROM " ++ tableName) :: restCooked)
          (("SELECT " ++ selectColumnsRaw ++ " FROM " ++ tableName) :: restRaw)
          values)
      else
        .ok (assembleTemplate suffix
          ((sqlCommand ++ " FROM " ++ tableName ++
              (if firstString = "" then "" else " " ++ firstString)) :: restCooked)
          ((sqlCommand ++ " FROM " ++ tableName ++
              (if firstRawString = "" then "" else " " ++ firstRawString)) :: restRaw)
          values)
  else if baseCommand = "INSERT" then
    match regexSearch insertKeywords firstString with
    | some keywordIndex =>
      let beforeKeyword := jsTrim (jsSubstringUpTo firstString (keywordIndex : Int))
      let afterKeyword := jsSubstringFrom firstString (keywordIndex : Int)
      let rawKeywordIndex := jsSearch insertKeywords firstRawString
      let beforeKeywordRaw := jsTrim (jsSubstringUpTo firstRawString rawKeywordIndex)
      let afterKeywordRaw := jsSubstringFrom firstRawString rawKeywordIndex
      .ok (assembleTemplate suffix
        (("INSERT INTO " ++ tableName ++ " " ++ beforeKeyword ++ " " ++ afterKeyword) :: restCooked)
        (("INSERT INTO " ++ tableName ++ " " ++ beforeKeywordRaw ++ " " ++ afterKeywordRaw) :: restRaw)
        values)
    | none =>
      .ok (assembleTemplate suffix
        (("INSERT INTO " ++ tableName ++ " " ++ firstString) :: restCooked)
        (("INSERT INTO " ++ tableName ++ " " ++ firstRawString) :: restRaw)
        values)
  else if baseCommand = "UPDATE" then
    let values :=
      match values with
      | .obj fields :: rest => .setClause fields :: rest
      | vs => vs
    match regexSearch updateKeywords firstString with
    | some keywordIndex =>
      let beforeKeyword := jsTrim (jsSubstringUpTo firstString (keywordIndex : Int))
      let afterKeyword := jsSubstringFrom firstString (keywordIndex : Int)
      let rawKeywordIndex := jsSearch updateKeywords firstRawString
      let beforeKeywordRaw := jsTrim (jsSubstringUpTo firstRawString rawKeywordIndex)
      let afterKeywordRaw := jsSubstringFrom firstRawString rawKeywordIndex
      .ok (assembleTemplate suffix
        (("UPDATE " ++ tableName ++ " SET " ++ beforeKeyword ++ " " ++ afterKeyword) :: restCooked)
        (("UPDATE " ++ tableName ++ " SET " ++ beforeKeywordRaw ++ " " ++ afterKeywordRaw) :: restRaw)
        values)
    | none =>
      .ok (assembleTemplate suffix
        (("UPDATE " ++ tableName ++ " SET " ++ firstString) :: restCooked)
        (("UPDATE " ++ tableName ++ " SET " ++ firstRawString) :: restRaw)
        values)
  else if baseCommand = "DELETE" then
    match regexSearch deleteKeywords firstString with
    | some keywordIndex =>
      let beforeKeyword := jsTrim (jsSubstringUpTo firstString (keywordIndex : Int))
      let afterKeyword := jsSubstringFrom firstString (keywordIndex : Int)
      let rawKeywordIndex := jsSearch deleteKeywords firstRawString
      let beforeKeywordRaw := jsTrim (jsSubstringUpTo firstRawString rawKeywordIndex)
      let afterKeywordRaw := jsSubstringFrom firstRawString rawKeywordIndex
      .ok (assembleTemplate suffix
        (("DELETE" ++ (if beforeKeyword = "" then "" else " " ++ beforeKeyword) ++
            " FROM " ++ tableName ++ " " ++ afterKeyword) :: restCooked)
        (("DELETE" ++ (if beforeKeywordRaw = "" then "" else " " ++ beforeKeywordRaw) ++
            " FROM " ++ tableName ++ " " ++ afterKeywordRaw) :: restRaw)
        values)
    | none =>
      .ok (assembleTemplate suffix
        (("DELETE FROM " ++ tableName ++
            (if firstString = "" then "" else " " ++ firstString)) :: restCooked)
        (("DELETE FROM " ++ tableName ++
            (if firstRawString = "" then "" else " " ++ firstRawString)) :: restRaw)
        values)
  else
    .error ("Unsupported SQL command: " ++ baseCommand)

/-- Render a parameterized template as a single statement string with
positional `$1, $2, ...` placeholders between the literal segments. -/
def renderSegments : List String → Nat → String
  | [], _ => ""
  | [s], _ => s
  | s :: t :: rest, i => s ++ "$" ++ toString i ++ renderSegments (t :: rest) (i + 1)

/-- The complete statement text of a rewritten template. -/
def renderStatement (segs : List String) : String := renderSegments segs 1

/-- A value in a raw database row (wire representation).  `undef` models JS
`undefined` (used on the decoded side); `json` stands for any other
driver value left untouched by the codec. -/
inductive DbVal where
  | null
  | undef
  | str (s : String)
  | num (q : Rat)
  | bool (b : Bool)
  | json (s : String)
  deriving Repr, DecidableEq

/-- The zod type recorded for a field in `this.schema`
(`populateSchemaField` stores `zodUnwrapType(this.zod.shape[name]).type`;
a name outside the shape yields `undefined`, modelled as `none`). -/
def schemaZodTy (shape : List (String × ZodProperty)) (k : String) :
    Option ZodTy :=
  (shape.find? (fun np => np.1 == k)).map (fun np => (zodUnwrapType np.2).type)

/-- `Collection.convertRowFromDatabase` (collection.ts): null becomes
undefined; a string value of a `ZodNumber`-typed field is parsed with
`Number(...)` — kept when it parses, passed through unchanged when it is
NaN; everything else is unchanged.  `parseNum` models the JS `Number`
builtin (`none` = NaN). -/
def convertRowFromDatabase (shape : List (String × ZodProperty))
    (parseNum : String → Option Rat) (row : List (String × DbVal)) :
    List (String × DbVal) :=
  row.map fun kv =>
    if kv.2 = .null then (kv.1, .undef)
    else
      match schemaZodTy shape kv.1, kv.2 with
      | some (.number _), .str s =>
        match parseNum s with
        | some q => (kv.1, .num q)
        | none => (kv.1, .str s)
      | _, _ => kv

/-- Modelled from the spec (§4.5 Row Codec): nulls become absent/undefined,
string values of numeric fields parse back to numbers with non-numeric
strings passed through unchanged, all other fields unchanged. -/
def specDecodeField (numericField : String → Bool)
    (parseNum : String → Option Rat) (kv : String × DbVal) : String × DbVal :=
  match kv.2 with
  | .null => (kv.1, .undef)
  | .str s =>
    if numericField kv.1 then
      match parseNum s with
      | some q => (kv.1, .num q)
      | none => (kv.1, .str s)
    else (kv.1, .str s)
  | _ => kv

/-- Is the recorded zod type a `ZodNumber`? -/
def isNumericTy : Option ZodTy → Bool
  | some (.number _) => true
  | _ => false

/-- `Collection.select` (collection.ts): rewrite through
`buildSqlTemplateStrings` with verb SELECT and empty suffix, execute, and
decode every row.  `exec` is the SQL driver collaborator. -/
def select (exec : TemplateStrings → List SqlValue → List (List (String × DbVal)))
    (shape : List (String × ZodProperty)) (parseNum : String → Option Rat)
    (tableName : String) (strings : TemplateStrings) (values : List SqlValue) :
    Except String (List (List (String × DbVal))) :=
  match buildSqlTemplateStrings tableName strings "SELECT" "" values with
  | .error e => .error e
  | .ok (ts, vals) => .ok ((exec ts vals).map (convertRowFromDatabase shape parseNum))

/-- The fragment screening and `LIMIT 1` rewriting of `Collection.selectOne`
(collection.ts): reject fragments whose joined literal text matches
`/\blimit\b/i`, otherwise append `LIMIT 1` to the last segment of both
arrays. -/
def selectOneStrings (strings : TemplateStrings) : Except String TemplateStrings :=
  if (regexSearch [["limit"]] (String.join strings.cooked)).isSome then
    .error ".selectOne() does not accept LIMIT"
  else
    .ok ⟨appendToLast strings.cooked " LIMIT 1", appendToLast strings.raw " LIMIT 1"⟩

/-- `Collection.selectOne` (collection.ts): screen the fragment, run
`select` on the modified template, and return the first row (`undefined`
when the result is empty). -/
def selectOne (exec : TemplateStrings → List SqlValue → List (List (String × DbVal)))
    (shape : List (String × ZodProperty)) (parseNum : String → Option Rat)
    (tableName : String) (strings : TemplateStrings) (values : List SqlValue) :
    Except String (Option (List (String × DbVal))) :=
  match selectOneStrings strings with
  | .error e => .error e
  | .ok ms =>
    match select exec shape parseNum tableName ms values with
    | .error e => .error e
    | .ok rows => .ok rows.head?

/-- A row object at the JS level (validated data). -/
abbrev RowData := List (String × JsVal)

/-- The INSERT statements `Collection.create` can issue. -/
inductive InsertStmt where
  | bulkInsert (table : String) (rows : List RowData)
  | insertValues (table : String) (data : RowData) (keys : List String)
  | insertDefaultValues (table : String)
  deriving Repr, DecidableEq

/-- JS object spread `{...a, ...b}`: keys of `a` in order (values overridden
by `b` where present), then the keys of `b` not in `a`. -/
def jsSpreadMerge (a b : RowData) : RowData :=
  (a.map fun kv => (kv.1, ((b.find? (fun kv2 => kv2.1 == kv.1)).map Prod.snd).getD kv.2)) ++
    b.filter (fun kv2 => ¬ a.any (fun kv => kv.1 == kv2.1))

/-- The array branch of `Collection.create` (collection.ts): validate every
input, return `[]` without issuing any statement for an empty array,
otherwise issue one bulk INSERT and merge each result row with its input.
Returns the list of statements issued together with the result. -/
def createMany (tbl : String) (exec : InsertStmt → List RowData)
    (parseWithDefaults : RowData → RowData) (inputs : List RowData) :
    List InsertStmt × List RowData :=
  let dataArray := inputs.map parseWithDefaults
  if dataArray.length = 0 then ([], [])
  else
    let stmt := InsertStmt.bulkInsert tbl dataArray
    ([stmt],
     (exec stmt).mapIdx fun i r => jsSpreadMerge r ((inputs.get? i).getD []))

/-- The single-input branch of `Collection.create` (collection.ts): validate,
then INSERT the keyed values — or `DEFAULT VALUES` when the validated data
has no keys.  Returns the statement issued and the result row. -/
def createOne (tbl : String) (exec : InsertStmt → List RowData)
    (parse : RowData → RowData) (input : RowData) : InsertStmt × RowData :=
  let data := parse input
  let keys := data.map Prod.fst
  let stmt :=
    if keys.length > 0 then InsertStmt.insertValues tbl data keys
    else InsertStmt.insertDefaultValues tbl
  (stmt, jsSpreadMerge (((exec stmt).head?).getD []) data)

/-- The planner condition under which `alterTable` throws
`must have a default value`: a live column matching the mapped type, a
non-`id` name, a nullable→non-nullable transition, and a normalized column
definition with no default (`undefined`). -/
def offendingColumn (existing : List LiveColumn) (c : String) (p : ZodProperty) : Prop :=
  ∃ ex, lookupLive existing c = some ex ∧ ex.type = zodToMappedType c p ∧
    c ≠ "id" ∧ ex.nullable = true ∧ (zodToPostgresType p).nullable = false ∧
    (zodToPostgresType p).default = none

/-- Modelled from the spec (§4.4 Column DDL Builder, "string defaults are
quoted and escaped"): a SQL string literal with embedded single quotes
doubled. -/
def sqlQuoteEscape (s : String) : String :=
  "'" ++ String.mk (s.toList.foldr
    (fun c acc =>
      if c = Char.ofNat 39 then Char.ofNat 39 :: Char.ofNat 39 :: acc else c :: acc)
    []) ++ "'"

/-- The default-value rendering `buildColumnDefinition` actually performs:
generator-expression markers and non-string values are emitted bare, other
strings are wrapped in single quotes verbatim (no escaping). -/
def renderDefaultValue (v : JsVal) : String :=
  match v with
  | .str s => if DEFAULT_METHODS.contains s then s else "'" ++ s ++ "'"
  | v => jsValToString v

/-! ### Helper lemmas -/

theorem string_empty_append (s : String) : "" ++ s = s := by
  apply String.ext
  simp [String.data_append]

theorem string_append_empty (s : String) : s ++ "" = s := by
  apply String.ext
  simp [String.data_append]

theorem jsJoin_mem (sep : String) {s : String} {l : List String} (h : s ∈ l) :
    ∃ x y, jsJoin sep l = x ++ s ++ y := by
  induction l with
  | nil => cases h
  | cons a rest ih =>
    cases rest with
    | nil =>
      rcases List.mem_singleton.mp h with rfl
      exact ⟨"", "", by simp [jsJoin, string_empty_append, string_append_empty]⟩
    | cons b rest2 =>
      rcases List.mem_cons.mp h with rfl | h2
      · refine ⟨"", sep ++ jsJoin sep (b :: rest2), ?_⟩
        simp [jsJoin, string_empty_append, String.append_assoc]
      · obtain ⟨x, y, hxy⟩ := ih h2
        refine ⟨a ++ sep ++ x, y, ?_⟩
        simp [jsJoin, hxy, String.append_assoc]

theorem find_filter_eq {α : Type} {p q : α → Bool} (l : List α)
    (himp : ∀ a, q a = true → p a = true) :
    (l.filter p).find? q = l.find? q := by
  induction l with
  | nil => rfl
  | cons a t ih =>
    by_cases hq : q a = true
    · have hp := himp a hq
      simp [List.filter_cons, hp, List.find?_cons_of_pos, hq]
    · by_cases hp : p a = true
      · simp only [List.filter_cons, hp, if_true]
        rw [List.find?_cons_of_neg _ hq, List.find?_cons_of_neg _ hq] at *
        exact ih
      · simp only [List.filter_cons, hp, if_false]
        rw [List.find?_cons_of_neg _ hq]
        exact ih

theorem lookupLive_filter {P : LiveColumn → Bool} {existing : List LiveColumn}
    {n : String} (h : ∀ c : LiveColumn, c.column_name == n → P c = true) :
    lookupLive (existing.filter P) n = lookupLive existing n := by
  unfold lookupLive
  rw [show (existing.filter P).reverse = existing.reverse.filter P from
        (List.filter_reverse P existing).symm]
  rw [find_filter_eq existing.reverse h]

theorem alterColumnCmds_noop {tbl colName : String} {existing : List LiveColumn}
    {p : ZodProperty} {ex : ExistingEntry}
    (h1 : lookupLive existing colName = some ex)
    (h2 : ex.type = zodToMappedType colName p)
    (h3 : ex.nullable = (zodToPostgresType p).nullable) :
    alterColumnCmds tbl existing colName p = .ok ([], []) := by
  unfold alterColumnCmds
  rw [h1]
  simp [h2, h3]

theorem alterColumnCmds_offending {tbl colName : String}
    {existing : List LiveColumn} {p : ZodProperty}
    (h : offendingColumn existing colName p) :
    alterColumnCmds tbl existing colName p = .error (mustHaveDefaultMsg tbl colName) := by
  obtain ⟨ex, h1, h2, h3, h4, h5, h6⟩ := h
  unfold alterColumnCmds
  rw [h1]
  simp [h2, h3, h4, h5, h6]

theorem alterColumnCmds_error_inv {tbl colName : String}
    {existing : List LiveColumn} {p : ZodProperty} {e : String}
    (h : alterColumnCmds tbl existing colName p = .error e) :
    offendingColumn existing colName p ∧ e = mustHaveDefaultMsg tbl colName := by
  unfold alterColumnCmds at h
  cases hl : lookupLive existing colName with
  | none => rw [hl] at h; simp at h
  | some ex =>
    rw [hl] at h
    dsimp only at h
    by_cases hty : ex.type = zodToMappedType colName p
    · rw [if_pos hty] at h
      by_cases hnn : colName ≠ "id" ∧ ex.nullable ≠ (zodToPostgresType p).nullable
      · rw [if_pos hnn] at h
        by_cases hnl : (zodToPostgresType p).nullable = true
        · rw [if_pos hnl] at h; simp at h
        · rw [if_neg hnl] at h
          cases hd : (zodToPostgresType p).default with
          | none =>
            rw [hd] at h
            simp only [Except.error.injEq] at h
            have hfalse : (zodToPostgresType p).nullable = false :=
              Bool.not_eq_true _ ▸ Bool.eq_false_iff.mpr hnl
            have hextrue : ex.nullable = true := by
              rcases Bool.eq_false_or_eq_true ex.nullable with hb | hb
              · exact hb
              · exact absurd (hb.trans hfalse.symm) hnn.2
            exact ⟨⟨ex, hl, hty, hnn.1, hextrue, hfalse, hd⟩, h.symm⟩
          | some v => rw [hd] at h; simp at h
      · rw [if_neg hnn] at h; simp at h
    · rw [if_neg hty] at h; simp at h

theorem alterColumnCmds_transition (tbl : String) {colName : String}
    {existing : List LiveColumn} {p : ZodProperty} {ex : ExistingEntry} {v : JsVal}
    (h1 : lookupLive existing colName = some ex)
    (h2 : ex.type = zodToMappedType colName p)
    (h3 : colName ≠ "id")
    (h4 : ex.nullable = true)
    (h5 : (zodToPostgresType p).nullable = false)
    (h6 : (zodToPostgresType p).default = some v) :
    alterColumnCmds tbl existing colName p =
      .ok (["UPDATE " ++ tbl ++ " SET " ++ colName ++ " = " ++ jsValToString v ++
              " WHERE " ++ colName ++ " IS NULL"],
           ["ALTER COLUMN " ++ colName ++ " SET NOT NULL"]) := by
  unfold alterColumnCmds
  rw [h1]
  dsimp only
  rw [if_pos h2, if_pos ⟨h3, by rw [h4, h5]; simp⟩, if_neg (by rw [h5]; simp), h6]

theorem alterTableCmds_noop {tbl : String} {existing : List LiveColumn}
    {shape : List (String × ZodProperty)}
    (h : ∀ np ∈ shape, ∃ ex, lookupLive existing np.1 = some ex ∧
          ex.type = zodToMappedType np.1 np.2 ∧
          ex.nullable = (zodToPostgresType np.2).nullable) :
    alterTableCmds tbl existing shape = .ok ([], []) := by
  induction shape with
  | nil => rfl
  | cons hd tl ih =>
    obtain ⟨ex, h1, h2, h3⟩ := h hd (List.mem_cons_self hd tl)
    obtain ⟨c, p⟩ := hd
    have hh : alterColumnCmds tbl existing c p = .ok ([], []) :=
      alterColumnCmds_noop h1 h2 h3
    have ht := ih (fun np hm => h np (List.mem_cons_of_mem _ hm))
    simp [alterTableCmds, hh, ht]

theorem alterTableCmds_error_of_offending (tbl : String)
    {existing : List LiveColumn} {shape : List (String × ZodProperty)}
    {np : String × ZodProperty}
    (hmem : np ∈ shape) (hoff : offendingColumn existing np.1 np.2) :
    ∃ c2 p2, (c2, p2) ∈ shape ∧ offendingColumn existing c2 p2 ∧
      alterTableCmds tbl existing shape = .error (mustHaveDefaultMsg tbl c2) := by
  induction shape with
  | nil => cases hmem
  | cons hd tl ih =>
    obtain ⟨c, p⟩ := hd
    cases hcmd : alterColumnCmds tbl existing c p with
    | error e =>
      obtain ⟨hoff2, he⟩ := alterColumnCmds_error_inv hcmd
      refine ⟨c, p, List.mem_cons_self _ _, hoff2, ?_⟩
      rw [he] at hcmd
      simp [alterTableCmds, hcmd]
    | ok pair =>
      have hmem2 : np ∈ tl := by
        rcases List.mem_cons.mp hmem with rfl | h2
        · rw [alterColumnCmds_offending hoff] at hcmd; cases hcmd
        · exact h2
      obtain ⟨c2, p2, hm2, ho2, herr⟩ := ih hmem2
      refine ⟨c2, p2, List.mem_cons_of_mem _ hm2, ho2, ?_⟩
      obtain ⟨pre1, alt1⟩ := pair
      simp [alterTableCmds, hcmd, herr]

theorem alterTableCmds_mem {tbl : String} {existing : List LiveColumn}
    {shape : List (String × ZodProperty)} {np : String × ZodProperty}
    {pre alts pre1 alt1 : List String}
    (hok : alterTableCmds tbl existing shape = .ok (pre, alts))
    (hmem : np ∈ shape)
    (hcol : alterColumnCmds tbl existing np.1 np.2 = .ok (pre1, alt1)) :
    (∀ x ∈ pre1, x ∈ pre) ∧ (∀ x ∈ alt1, x ∈ alts) := by
  induction shape generalizing pre alts with
  | nil => cases hmem
  | cons hd tl ih =>
    obtain ⟨c, p⟩ := hd
    unfold alterTableCmds at hok
    cases hcmd : alterColumnCmds tbl existing c p with
    | error e => rw [hcmd] at hok; cases hok
    | ok pair1 =>
      rw [hcmd] at hok
      obtain ⟨preh, alth⟩ := pair1
      cases htl : alterTableCmds tbl existing tl with
      | error e => rw [htl] at hok; cases hok
      | ok pair2 =>
        rw [htl] at hok
        obtain ⟨pret, altt⟩ := pair2
        simp only [Except.ok.injEq, Prod.mk.injEq] at hok
        obtain ⟨hpre, halts⟩ := hok
        rcases List.mem_cons.mp hmem with rfl | h2
        · rw [hcol] at hcmd
          simp only [Except.ok.injEq, Prod.mk.injEq] at hcmd
          subst hpre halts
          exact ⟨fun x hx => List.mem_append_left _ (hcmd.1 ▸ hx),
                 fun x hx => List.mem_append_left _ (hcmd.2 ▸ hx)⟩
        · obtain ⟨ihp, iha⟩ := ih htl h2
          subst hpre halts
          exact ⟨fun x hx => List.mem_append_right _ (ihp x hx),
                 fun x hx => List.mem_append_right _ (iha x hx)⟩

theorem alterColumnCmds_cmd_forms {tbl colName : String}
    {existing : List LiveColumn} {p : ZodProperty} {pre1 alt1 : List String}
    (h : alterColumnCmds tbl existing colName p = .ok (pre1, alt1)) :
    (∀ s ∈ alt1, (∃ r, s = "ADD COLUMN " ++ r) ∨ (∃ r, s = "ALTER COLUMN " ++ r)) ∧
    (∀ s ∈ pre1, ∃ r, s = "UPDATE " ++ r) := by
  unfold alterColumnCmds at h
  cases hl : lookupLive existing colName with
  | none =>
    rw [hl] at h
    simp only [Except.ok.injEq, Prod.mk.injEq] at h
    obtain ⟨hp, ha⟩ := h
    subst hp ha
    exact ⟨fun s hs => by
        rcases List.mem_singleton.mp hs with rfl
        exact Or.inl ⟨_, rfl⟩,
      fun s hs => by cases hs⟩
  | some ex =>
    rw [hl] at h
    dsimp only at h
    by_cases hty : ex.type = zodToMappedType colName p
    · rw [if_pos hty] at h
      by_cases hnn : colName ≠ "id" ∧ ex.nullable ≠ (zodToPostgresType p).nullable
      · rw [if_pos hnn] at h
        by_cases hnl : (zodToPostgresType p).nullable = true
        · rw [if_pos hnl] at h
          simp only [Except.ok.injEq, Prod.mk.injEq] at h
          obtain ⟨hp, ha⟩ := h
          subst hp ha
          refine ⟨fun s hs => ?_, fun s hs => by cases hs⟩
          rcases List.mem_singleton.mp hs with rfl
          exact Or.inr ⟨colName ++ " DROP NOT NULL", by rw [String.append_assoc]⟩
        · rw [if_neg hnl] at h
          cases hd : (zodToPostgresType p).default with
          | none => rw [hd] at h; cases h
          | some v =>
            rw [hd] at h
            simp only [Except.ok.injEq, Prod.mk.injEq] at h
            obtain ⟨hp, ha⟩ := h
            subst hp ha
            constructor
            · intro s hs
              rcases List.mem_singleton.mp hs with rfl
              exact Or.inr ⟨colName ++ " SET NOT NULL", by rw [String.append_assoc]⟩
            · intro s hs
              rcases List.mem_singleton.mp hs with rfl
              refine ⟨tbl ++ " SET " ++ colName ++ " = " ++ jsValToString v ++
                        " WHERE " ++ colName ++ " IS NULL", ?_⟩
              simp [String.append_assoc]
      · rw [if_neg hnn] at h
        simp only [Except.ok.injEq, Prod.mk.injEq] at h
        obtain ⟨hp, ha⟩ := h
        subst hp ha
        refine ⟨fun s hs => ?_, fun s hs => ?_⟩ <;> cases hs
    · rw [if_neg hty] at h
      simp only [Except.ok.injEq, Prod.mk.injEq] at h
      obtain ⟨hp, ha⟩ := h
      subst hp ha
      refine ⟨fun s hs => ?_, fun s hs => by cases hs⟩
      rcases List.mem_singleton.mp hs with rfl
      by_cases he : (zodToPostgresType p).type = "ENUM"
      · rw [if_pos he]
        refine Or.inr ⟨colName ++ " TYPE " ++
          (buildColumnDefinition tbl colName (zodToPostgresType p)).2.type ++
          " USING (" ++ colName ++ "::" ++
          (buildColumnDefinition tbl colName (zodToPostgresType p)).2.type ++ ")", ?_⟩
        simp [String.append_assoc]
      · rw [if_neg he]
        refine Or.inr ⟨colName ++ " TYPE " ++
          (buildColumnDefinition tbl colName (zodToPostgresType p)).2.type, ?_⟩
        simp [String.append_assoc]

theorem alterTableCmds_congr_existing {tbl : String}
    {existing1 existing2 : List LiveColumn} {shape : List (String × ZodProperty)}
    (h : ∀ np ∈ shape, lookupLive existing1 np.1 = lookupLive existing2 np.1) :
    alterTableCmds tbl existing1 shape = alterTableCmds tbl existing2 shape := by
  induction shape with
  | nil => rfl
  | cons hd tl ih =>
    obtain ⟨c, p⟩ := hd
    have hc : alterColumnCmds tbl existing1 c p = alterColumnCmds tbl existing2 c p := by
      unfold alterColumnCmds
      rw [h (c, p) (List.mem_cons_self _ _)]
    have ht := ih (fun np hm => h np (List.mem_cons_of_mem _ hm))
    simp only [alterTableCmds, hc, ht]

theorem alterTableCmds_all_forms {tbl : String} {existing : List LiveColumn}
    {shape : List (String × ZodProperty)} {pre alts : List String}
    (h : alterTableCmds tbl existing shape = .ok (pre, alts)) :
    (∀ s ∈ alts, (∃ r, s = "ADD COLUMN " ++ r) ∨ (∃ r, s = "ALTER COLUMN " ++ r)) ∧
    (∀ s ∈ pre, ∃ r, s = "UPDATE " ++ r) := by
  induction shape generalizing pre alts with
  | nil =>
    unfold alterTableCmds at h
    simp only [Except.ok.injEq, Prod.mk.injEq] at h
    obtain ⟨hp, ha⟩ := h
    subst hp ha
    refine ⟨fun s hs => ?_, fun s hs => ?_⟩ <;> cases hs
  | cons hd tl ih =>
    obtain ⟨c, p⟩ := hd
    unfold alterTableCmds at h
    cases hcmd : alterColumnCmds tbl existing c p with
    | error e => rw [hcmd] at h; cases h
    | ok pair1 =>
      rw [hcmd] at h
      obtain ⟨preh, alth⟩ := pair1
      cases htl : alterTableCmds tbl existing tl with
      | error e => rw [htl] at h; cases h
      | ok pair2 =>
        rw [htl] at h
        obtain ⟨pret, altt⟩ := pair2
        simp only [Except.ok.injEq, Prod.mk.injEq] at h
        obtain ⟨hp, ha⟩ := h
        subst hp ha
        obtain ⟨hah, hph⟩ := alterColumnCmds_cmd_forms hcmd
        obtain ⟨hat, hpt⟩ := ih htl
        refine ⟨fun s hs => ?_, fun s hs => ?_⟩
        · rcases List.mem_append.mp hs with hs | hs
          · exact hah s hs
          · exact hat s hs
        · rcases List.mem_append.mp hs with hs | hs
          · exact hph s hs
          · exact hpt s hs

/-! ### Claim theorems -/

/-- C1 counterexample: the claim fails as stated.  The target field
`value : z.date()` carries no declared default (`zodUnwrapType` reports
`defaultValue = none`), its name is not `id`, and its mapped physical type
equals the live type of the nullable live column — yet migration planning
does **not** raise an error: `zodToPostgresType` silently turns the absent
default of a date field into the JS value `null`, so `alterTable` emits a
`SET value = null` backfill and the `SET NOT NULL` DDL instead of failing. -/
theorem c1_counterexample :
    (zodUnwrapType ⟨.base .date, false⟩).defaultValue = none ∧
    zodToMappedType "value" ⟨.base .date, false⟩ = "timestamp without time zone" ∧
    (zodToPostgresType ⟨.base .date, false⟩).nullable = false ∧
    alterTable "t" [("value", ⟨.base .date, false⟩)]
        [⟨"value", "timestamp without time zone", "YES", none⟩] =
      .ok ["UPDATE t SET value = null WHERE value IS NULL",
           "ALTER TABLE t ALTER COLUMN value SET NOT NULL"] :=
  ⟨rfl, rfl, rfl, rfl⟩

/-- C1 (amended): for every table whose live columns contain a nullable
column while the target schema declares it non-nullable (name not `id`,
mapped physical type unchanged), if the target field's **normalized column
definition** has no default value (`zodToPostgresType` yields
`default = undefined` — which excludes date and uuid fields, whose absent
declared defaults are materialized as `null` resp. `gen_random_uuid()`),
then migration planning fails with an error naming an offending column and
produces no DDL statement at all. -/
theorem c1_planning_fails_closed (tbl : String)
    (shape : List (String × ZodProperty)) (existing : List LiveColumn)
    (np : String × ZodProperty) (hmem : np ∈ shape)
    (hoff : offendingColumn existing np.1 np.2) :
    ∃ c2 p2, (c2, p2) ∈ shape ∧ offendingColumn existing c2 p2 ∧
      getMigrationSql tbl shape true existing = .error (mustHaveDefaultMsg tbl c2) ∧
      executedStatements (getMigrationSql tbl shape true existing) = [] := by
  obtain ⟨c2, p2, hm, ho, herr⟩ :=
    alterTableCmds_error_of_offending tbl hmem hoff
  refine ⟨c2, p2, hm, ho, ?_, ?_⟩
  · simp [getMigrationSql, alterTable, herr]
  · simp [getMigrationSql, alterTable, herr, executedStatements]

/-- C1 witness: a nullable numeric column migrated to non-nullable with no
default makes planning fail with the error naming it. -/
theorem c1_witness :
    ∃ c2 p2,
      (c2, p2) ∈ [("age", (⟨.base (.number .other), false⟩ : ZodProperty))] ∧
      offendingColumn [⟨"age", "numeric", "YES", none⟩] c2 p2 ∧
      getMigrationSql "users" [("age", ⟨.base (.number .other), false⟩)] true
          [⟨"age", "numeric", "YES", none⟩] =
        .error (mustHaveDefaultMsg "users" c2) ∧
      executedStatements
          (getMigrationSql "users" [("age", ⟨.base (.number .other), false⟩)] true
            [⟨"age", "numeric", "YES", none⟩]) = [] :=
  c1_planning_fails_closed "users" _ _ ("age", ⟨.base (.number .other), false⟩)
    (List.mem_singleton.mpr rfl)
    ⟨⟨"numeric", true, none⟩, rfl, rfl, by decide, rfl, rfl, rfl⟩

/-- C3 counterexample: the claim fails as stated for a `z.float32()` field.
The first migration of the one-column schema creates `value REAL`, so the
live snapshot afterwards reports type `real` (non-nullable, no default) —
yet `zodToMappedType` returns `numeric` for the field (the typemap lookup
uses the zod tag `def.type = "number"`, leaving the `float32`/`float64`
typemap entries unreachable), so the second planning run against that
snapshot is not empty: it emits `ALTER COLUMN value TYPE REAL`, and does so
on every subsequent run. -/
theorem c3_counterexample :
    getMigrationSql "t" [("value", ⟨.base (.number .float32), false⟩)] false []
      = .ok ["CREATE TABLE t (value REAL NOT NULL)"] ∧
    zodToMappedType "value" ⟨.base (.number .float32), false⟩ = "numeric" ∧
    getMigrationSql "t" [("value", ⟨.base (.number .float32), false⟩)] true
        [⟨"value", "real", "NO", none⟩]
      = .ok ["ALTER TABLE t ALTER COLUMN value TYPE REAL"] :=
  ⟨rfl, rfl, rfl⟩

/-- C3 (amended): for every declared schema whose live columns, after a
successful migration, match the target — every target column present with
its mapped physical type and its declared nullability (which holds for the
text/varchar/decimal/boolean/timestamp/jsonb/uuid/enum/identity mappings,
but not for `z.float32()`/`z.float64()` fields, whose live types never
equal their mapped type `numeric`) — the second planning run returns an
empty statement list. -/
theorem c3_second_plan_empty (tbl : String) (shape : List (String × ZodProperty))
    (existing : List LiveColumn)
    (h : ∀ np ∈ shape, ∃ ex, lookupLive existing np.1 = some ex ∧
          ex.type = zodToMappedType np.1 np.2 ∧
          ex.nullable = (zodToPostgresType np.2).nullable) :
    getMigrationSql tbl shape true existing = .ok [] := by
  simp [getMigrationSql, alterTable, alterTableCmds_noop h]

/-- C3 witness: a three-column schema (identity id, optional text, enum with
default) whose live snapshot reports the mapped types; the second plan is
empty. -/
theorem c3_witness :
    getMigrationSql "users"
        [("id", ⟨.base (.number .other), false⟩),
         ("name", ⟨.optional (.base (.string none)), false⟩),
         ("role", ⟨.defaulted (.str "user") (.base (.enum ["user", "admin"])), false⟩)]
        true
        [⟨"id", "integer", "NO", none⟩,
         ⟨"name", "text", "YES", none⟩,
         ⟨"role", "USER-DEFINED", "NO", some "'user'::users_role"⟩] = .ok [] :=
  c3_second_plan_empty _ _ _ (by
    intro np hm
    fin_cases hm <;> exact ⟨_, rfl, rfl, rfl⟩)

/-- C4: in every successful plan containing a nullable→non-nullable
transition for a column with a declared (normalized) default, the plan is
the two-statement list whose first statement contains the backfill
`UPDATE <tbl> SET <col> = <default> WHERE <col> IS NULL` and whose second,
later statement contains the `ALTER COLUMN <col> SET NOT NULL` alteration. -/
theorem c4_backfill_before_set_not_null (tbl : String)
    (shape : List (String × ZodProperty)) (existing : List LiveColumn)
    (c : String) (p : ZodProperty) (ex : ExistingEntry) (v : JsVal)
    (sqls : List String)
    (hmem : (c, p) ∈ shape)
    (h1 : lookupLive existing c = some ex)
    (h2 : ex.type = zodToMappedType c p)
    (h3 : c ≠ "id")
    (h4 : ex.nullable = true)
    (h5 : (zodToPostgresType p).nullable = false)
    (h6 : (zodToPostgresType p).default = some v)
    (hplan : alterTable tbl shape existing = .ok sqls) :
    ∃ s1 s2, sqls = [s1, s2] ∧
      (∃ x y, s1 = x ++ ("UPDATE " ++ tbl ++ " SET " ++ c ++ " = " ++
          jsValToString v ++ " WHERE " ++ c ++ " IS NULL") ++ y) ∧
      (∃ x y, s2 = x ++ ("ALTER COLUMN " ++ c ++ " SET NOT NULL") ++ y) := by
  have hcol := alterColumnCmds_transition tbl h1 h2 h3 h4 h5 h6
  unfold alterTable at hplan
  cases hcmds : alterTableCmds tbl existing shape with
  | error e => rw [hcmds] at hplan; cases hplan
  | ok pair =>
    rw [hcmds] at hplan
    obtain ⟨pre, alts⟩ := pair
    obtain ⟨hpre, halt⟩ := alterTableCmds_mem hcmds hmem hcol
    have hb := hpre _ (List.mem_singleton.mpr rfl)
    have ha := halt _ (List.mem_singleton.mpr rfl)
    have hpre_ne : ¬ pre = [] := fun h0 => by rw [h0] at hb; cases hb
    have halts_ne : ¬ alts = [] := fun h0 => by rw [h0] at ha; cases ha
    dsimp only at hplan
    rw [if_neg hpre_ne, if_neg halts_ne] at hplan
    simp only [List.singleton_append, Except.ok.injEq] at hplan
    obtain ⟨x1, y1, hxy1⟩ := jsJoin_mem "; " hb
    obtain ⟨x2, y2, hxy2⟩ := jsJoin_mem ", " ha
    refine ⟨_, _, hplan.symm, ⟨x1, y1, hxy1⟩,
      ⟨"ALTER TABLE " ++ tbl ++ " " ++ x2, y2, ?_⟩⟩
    rw [hxy2]
    simp [String.append_assoc]

/-- C4 witness: migrating `age` from nullable numeric to non-nullable with
default `0` yields the backfill statement strictly before the
`SET NOT NULL` statement. -/
theorem c4_witness :
    ∃ s1 s2,
      ["UPDATE users SET age = 0 WHERE age IS NULL",
       "ALTER TABLE users ALTER COLUMN age SET NOT NULL"] = [s1, s2] ∧
      (∃ x y, s1 = x ++ ("UPDATE " ++ "users" ++ " SET " ++ "age" ++ " = " ++
          jsValToString (.num 0) ++ " WHERE " ++ "age" ++ " IS NULL") ++ y) ∧
      (∃ x y, s2 = x ++ ("ALTER COLUMN " ++ "age" ++ " SET NOT NULL") ++ y) :=
  c4_backfill_before_set_not_null "users"
    [("age", ⟨.defaulted (.num 0) (.base (.number .other)), false⟩)]
    [⟨"age", "numeric", "YES", none⟩]
    "age" ⟨.defaulted (.num 0) (.base (.number .other)), false⟩
    ⟨"numeric", true, none⟩ (.num 0)
    ["UPDATE users SET age = 0 WHERE age IS NULL",
     "ALTER TABLE users ALTER COLUMN age SET NOT NULL"]
    (List.mem_singleton.mpr rfl) rfl rfl (by decide) rfl rfl rfl rfl

/-- C5: the migration planner never touches a live column absent from the
target schema — restricting the live columns to the target column names
leaves the plan unchanged (so no emitted statement can depend on, or
mention, such a column) — and it never emits a DROP COLUMN: every batched
alteration is an `ADD COLUMN` or an `ALTER COLUMN`, and every
pre-statement is an `UPDATE` backfill. -/
theorem c5_never_drops_columns (tbl : String) (shape : List (String × ZodProperty))
    (existing : List LiveColumn) :
    alterTable tbl shape
        (existing.filter (fun col => (shape.map Prod.fst).contains col.column_name))
      = alterTable tbl shape existing ∧
    (∀ pre alts, alterTableCmds tbl existing shape = .ok (pre, alts) →
      (∀ s ∈ alts, (∃ r, s = "ADD COLUMN " ++ r) ∨ (∃ r, s = "ALTER COLUMN " ++ r)) ∧
      (∀ s ∈ pre, ∃ r, s = "UPDATE " ++ r)) := by
  constructor
  · have hcong : alterTableCmds tbl
        (existing.filter (fun col => (shape.map Prod.fst).contains col.column_name)) shape
        = alterTableCmds tbl existing shape := by
      apply alterTableCmds_congr_existing
      intro np hm
      apply lookupLive_filter
      intro col hcb
      have hceq : col.column_name = np.1 := by simpa using hcb
      have hmem2 : np.1 ∈ shape.map Prod.fst := List.mem_map_of_mem Prod.fst hm
      rw [hceq]
      simpa using hmem2
    unfold alterTable
    rw [hcong]
  · intro pre alts h
    exact alterTableCmds_all_forms h

/-- C5 witness: a live column `legacy` absent from the one-column target
schema does not influence the plan, and the plan's one alteration is an
ADD COLUMN. -/
theorem c5_witness :
    (alterTable "users" [("nick", ⟨.optional (.base (.string none)), false⟩)]
        ([⟨"id", "integer", "NO", none⟩, ⟨"legacy", "text", "YES", none⟩].filter
          (fun col =>
            (([("nick", (⟨.optional (.base (.string none)), false⟩ : ZodProperty))]).map
                Prod.fst).contains col.column_name))
      = alterTable "users" [("nick", ⟨.optional (.base (.string none)), false⟩)]
          [⟨"id", "integer", "NO", none⟩, ⟨"legacy", "text", "YES", none⟩]) ∧
    ((∀ s ∈ ["ADD COLUMN nick TEXT"],
        (∃ r, s = "ADD COLUMN " ++ r) ∨ (∃ r, s = "ALTER COLUMN " ++ r)) ∧
     (∀ s ∈ ([] : List String), ∃ r, s = "UPDATE " ++ r)) :=
  ⟨(c5_never_drops_columns "users"
      [("nick", ⟨.optional (.base (.string none)), false⟩)]
      [⟨"id", "integer", "NO", none⟩, ⟨"legacy", "text", "YES", none⟩]).1,
   (c5_never_drops_columns "users"
      [("nick", ⟨.optional (.base (.string none)), false⟩)]
      [⟨"id", "integer", "NO", none⟩, ⟨"legacy", "text", "YES", none⟩]).2
     [] ["ADD COLUMN nick TEXT"] rfl⟩

/-- C2: template rewrite correctness at the spec's three examples — the
SELECT fragment `* WHERE age > $1` on `users`, the UPDATE fragment
`name = $1` on `items`, and the empty DELETE fragment on `items` — each
producing the expected complete statement with the parameter positions
unchanged. -/
theorem c2_template_rewrite :
    (buildSqlTemplateStrings "users" ⟨["* WHERE age > ", ""], ["* WHERE age > ", ""]⟩
        "SELECT" "" [.prim (.num 21)]
      = .ok (⟨["SELECT * FROM users WHERE age > ", ""],
              ["SELECT * FROM users WHERE age > ", ""]⟩, [.prim (.num 21)]) ∧
     renderStatement ["SELECT * FROM users WHERE age > ", ""]
       = "SELECT * FROM users WHERE age > $1") ∧
    (buildSqlTemplateStrings "items" ⟨["name = ", ""], ["name = ", ""]⟩
        "UPDATE" "" [.prim (.str "Ana")]
      = .ok (⟨["UPDATE items SET name = ", ""], ["UPDATE items SET name = ", ""]⟩,
             [.prim (.str "Ana")]) ∧
     renderStatement ["UPDATE items SET name = ", ""] = "UPDATE items SET name = $1") ∧
    (buildSqlTemplateStrings "items" ⟨[""], [""]⟩ "DELETE" "" []
      = .ok (⟨["DELETE FROM items"], ["DELETE FROM items"]⟩, []) ∧
     renderStatement ["DELETE FROM items"] = "DELETE FROM items") :=
  ⟨⟨rfl, rfl⟩, ⟨rfl, rfl⟩, ⟨rfl, rfl⟩⟩

/-- C6: enum re-declaration only ever appends — the issued statements are
exactly one `ALTER TYPE ... ADD VALUE` per declared option not already
present, in declared order; the existing labels survive as an unchanged
initial segment of the resulting label list; and a declared option list
that is a subset of the existing labels issues no statement at all. -/
theorem c6_enum_growth_monotonic (labels options : List String) (tyName : String) :
    createEnumType (some labels) tyName options
        = (options.filter (fun o => ¬ labels.contains o)).map
            (fun o => "ALTER TYPE " ++ tyName ++ " ADD VALUE '" ++ o ++ "'") ∧
    (∃ t, enumLabelsAfter (some labels) options = labels ++ t) ∧
    ((∀ o ∈ options, labels.contains o) →
      createEnumType (some labels) tyName options = []) := by
  refine ⟨rfl, ⟨_, rfl⟩, fun h => ?_⟩
  have hnil : options.filter (fun o => ¬ labels.contains o) = [] := by
    rw [List.filter_eq_nil_iff]
    intro a ha
    simpa using h a ha
  have heq : createEnumType (some labels) tyName options
      = (options.filter (fun o => ¬ labels.contains o)).map
          (fun o => "ALTER TYPE " ++ tyName ++ " ADD VALUE '" ++ o ++ "'") := rfl
  rw [heq, hnil]
  rfl

/-- C6 witness: re-declaring `users_role` with the same two options issues
no ALTER TYPE statement. -/
theorem c6_witness :
    createEnumType (some ["user", "admin"]) "users_role" ["user", "admin"] = [] :=
  (c6_enum_growth_monotonic ["user", "admin"] ["user", "admin"] "users_role").2.2
    (by decide)

/-- C7: `selectOne` rejects any fragment whose joined literal text contains
the word `limit` (case-insensitive, at a word boundary) with a
`TemplateUsageError` before consulting the query executor (the result is
the error for every `exec`); otherwise it appends ` LIMIT 1` to the final
literal segment of both arrays and returns the first row of the select
result (`none`, i.e. undefined, when the result is empty). -/
theorem c7_selectOne_limit
    (exec : TemplateStrings → List SqlValue → List (List (String × DbVal)))
    (shape : List (String × ZodProperty)) (parseNum : String → Option Rat)
    (tbl : String) (strings : TemplateStrings) (values : List SqlValue) :
    ((regexSearch [["limit"]] (String.join strings.cooked)).isSome = true →
      selectOne exec shape parseNum tbl strings values
        = .error ".selectOne() does not accept LIMIT") ∧
    ((regexSearch [["limit"]] (String.join strings.cooked)).isSome = false →
      ∀ rows, select exec shape parseNum tbl
          ⟨appendToLast strings.cooked " LIMIT 1", appendToLast strings.raw " LIMIT 1"⟩
          values = .ok rows →
        selectOne exec shape parseNum tbl strings values = .ok rows.head?) := by
  constructor
  · intro h
    simp [selectOne, selectOneStrings, h]
  · intro h rows hsel
    simp [selectOne, selectOneStrings, h, hsel]

/-- C7 witness: a fragment containing LIMIT fails fast; a fragment without
LIMIT returns the first of two result rows. -/
theorem c7_witness :
    selectOne (fun _ _ => []) [] (fun _ => none) "users"
        ⟨["* ORDER BY a LIMIT 2"], ["* ORDER BY a LIMIT 2"]⟩ []
      = .error ".selectOne() does not accept LIMIT" ∧
    selectOne (fun _ _ => [[("x", DbVal.num 1)], [("x", DbVal.num 2)]]) []
        (fun _ => none) "users" ⟨["* WHERE a = ", ""], ["* WHERE a = ", ""]⟩
        [.prim (.num 1)]
      = .ok (some [("x", DbVal.num 1)]) :=
  ⟨(c7_selectOne_limit (fun _ _ => []) [] (fun _ => none) "users"
      ⟨["* ORDER BY a LIMIT 2"], ["* ORDER BY a LIMIT 2"]⟩ []).1 rfl,
   (c7_selectOne_limit (fun _ _ => [[("x", DbVal.num 1)], [("x", DbVal.num 2)]]) []
      (fun _ => none) "users" ⟨["* WHERE a = ", ""], ["* WHERE a = ", ""]⟩
      [.prim (.num 1)]).2 rfl
     [[("x", DbVal.num 1)], [("x", DbVal.num 2)]] rfl⟩

theorem string_quote_merge (X : String) :
    " DEFAULT '" ++ X = " DEFAULT " ++ ("'" ++ X) :=
  String.append_assoc " DEFAULT " "'" X

theorem string_quote_merge_nn (X : String) :
    " NOT NULL DEFAULT '" ++ X = " NOT NULL DEFAULT " ++ ("'" ++ X) :=
  String.append_assoc " NOT NULL DEFAULT " "'" X

/-- C8 counterexample: the claim's "quoted and escaped" fails as stated —
a string default containing a single quote is wrapped in quotes verbatim,
with the embedded quote left unescaped, so the rendered DEFAULT clause
differs from the quoted-and-escaped rendering. -/
theorem c8_counterexample :
    (buildColumnDefinition "t" "c"
        ⟨"TEXT", false, some (.str "O'Brien"), [], false⟩).1
      = "c TEXT NOT NULL DEFAULT 'O'Brien'" ∧
    "c TEXT NOT NULL DEFAULT 'O'Brien'" ≠
      "c TEXT NOT NULL DEFAULT " ++ sqlQuoteEscape "O'Brien" :=
  ⟨rfl, by decide⟩

/-- C8 (amended): for every non-`id` column with a defined default, the
DEFAULT clause renders a generator-expression marker bare, any other string
default wrapped in single quotes verbatim (quoted but **not** escaped), and
a numeric/boolean (or null) default bare. -/
theorem c8_default_rendering (tbl name : String) (d : ColumnDefinition) (v : JsVal)
    (h1 : name ≠ "id") (h2 : d.default = some v) :
    (buildColumnDefinition tbl name d).1 =
      name ++ " " ++ (if d.type = "ENUM" then tbl ++ "_" ++ name else d.type) ++
      (if d.nullable then "" else " NOT NULL") ++
      " DEFAULT " ++ renderDefaultValue v ++
      (if d.unique then " UNIQUE" else "") := by
  obtain ⟨ty, nl, df, opts, uq⟩ := d
  simp only at h2
  subst h2
  unfold buildColumnDefinition renderDefaultValue
  cases v with
  | str t =>
    by_cases hc : t ∈ DEFAULT_METHODS <;>
      by_cases he : ty = "ENUM" <;> by_cases hn : nl <;> by_cases hu : uq <;>
        simp [hc, he, hn, hu, h1, string_append_empty, String.append_assoc,
          string_quote_merge, string_quote_merge_nn]
  | num n =>
    by_cases he : ty = "ENUM" <;> by_cases hn : nl <;> by_cases hu : uq <;>
      simp [he, hn, hu, h1, string_append_empty, String.append_assoc, jsValToString]
  | bool b =>
    cases b <;>
      (by_cases he : ty = "ENUM" <;> by_cases hn : nl <;> by_cases hu : uq <;>
        simp [he, hn, hu, h1, string_append_empty, String.append_assoc, jsValToString])
  | null =>
    by_cases he : ty = "ENUM" <;> by_cases hn : nl <;> by_cases hu : uq <;>
      simp [he, hn, hu, h1, string_append_empty, String.append_assoc, jsValToString]

/-- C8 witness: a numeric default on a nullable TEXT column renders bare. -/
theorem c8_witness :
    (buildColumnDefinition "t" "c" ⟨"TEXT", true, some (.num 5), [], false⟩).1 =
      "c" ++ " " ++ (if ("TEXT" : String) = "ENUM" then "t" ++ "_" ++ "c" else "TEXT") ++
      (if true then "" else " NOT NULL") ++
      " DEFAULT " ++ renderDefaultValue (.num 5) ++
      (if false then " UNIQUE" else "") :=
  c8_default_rendering "t" "c" ⟨"TEXT", true, some (.num 5), [], false⟩ (.num 5)
    (by decide) rfl

/-- C9: the row codec maps every null field to undefined, parses every
string value of a numeric-typed field into a number when the `Number`
builtin succeeds, passes the original string through unchanged when it does
not (NaN), and leaves every other field unchanged — i.e. it is exactly the
field-wise decoder described by the spec. -/
theorem c9_row_codec (shape : List (String × ZodProperty))
    (parseNum : String → Option Rat) (row : List (String × DbVal)) :
    convertRowFromDatabase shape parseNum row =
      row.map (specDecodeField (fun k => isNumericTy (schemaZodTy shape k)) parseNum) := by
  unfold convertRowFromDatabase
  apply List.map_congr_left
  intro kv _
  obtain ⟨k, v⟩ := kv
  cases v with
  | null => simp [specDecodeField]
  | str s =>
    cases hty : schemaZodTy shape k with
    | none => simp [specDecodeField, isNumericTy, hty]
    | some t =>
      cases t <;> simp [specDecodeField, isNumericTy, hty]
  | undef => simp [specDecodeField]
  | num q => simp [specDecodeField]
  | bool b => simp [specDecodeField]
  | json s => simp [specDecodeField]

/-- C10: `create` with an empty array of inputs returns an empty array and
issues no database statement at all, while `create` with a single input
whose validated data has zero keys issues `INSERT ... DEFAULT VALUES`
rather than an INSERT with an empty column list. -/
theorem c10_create_empty_inputs (tbl : String)
    (exec : InsertStmt → List RowData) (parseWD parse : RowData → RowData) :
    createMany tbl exec parseWD [] = ([], []) ∧
    (∀ input, (parse input).map Prod.fst = [] →
      (createOne tbl exec parse input).1 = .insertDefaultValues tbl) := by
  constructor
  · rfl
  · intro input h
    unfold createOne
    simp [h]

/-- C10 witness: the empty array issues nothing; an input validating to the
empty object issues DEFAULT VALUES. -/
theorem c10_witness :
    createMany "users" (fun _ => [[("id", JsVal.num 1)]]) id [] = ([], []) ∧
    (createOne "users" (fun _ => [[("id", JsVal.num 1)]]) id []).1
      = InsertStmt.insertDefaultValues "users" :=
  ⟨(c10_create_empty_inputs "users" (fun _ => [[("id", JsVal.num 1)]]) id id).1,
   (c10_create_empty_inputs "users" (fun _ => [[("id", JsVal.num 1)]]) id id).2 [] rfl⟩

end Zodgres
